import Mathlib

/-!
Shallow embedding of the AI query/anomaly core of the fintech platform
(src/ai/anomaly_detector.py, nl_to_sql.py, vector_store.py, hf_api.py,
local_models.py), together with theorems checking the specification's
claims about it.

Conventions used throughout:
* Python strings are modelled as `List Char`; Python floats as `ℚ`
  (all constants appearing in the code are decimal and exactly
  representable).
* External collaborators (the relational store, the ChromaDB backend,
  the hosted language model, the local transformer models, `sqlparse`)
  are passed in as explicit function parameters; fallible ones return
  `Except`.
* `datetime.now()` is modelled by an explicit `Now` value per call
  (calendar date as an `Int` day number, wall-clock time in seconds
  as a `ℚ`).
-/

/-! ## Python string primitives -/

/-- Python `str.lower()` (ASCII case folding, which is all the code relies on). -/
def pyLower (s : List Char) : List Char := s.map Char.toLower

/-- Python `str.upper()`. -/
def pyUpper (s : List Char) : List Char := s.map Char.toUpper

/-- Python `str.strip()`: remove leading and trailing whitespace. -/
def pyStrip (s : List Char) : List Char :=
  ((s.dropWhile Char.isWhitespace).reverse.dropWhile Char.isWhitespace).reverse

/-- A regex word character (`\w`): letter, digit or underscore (ASCII). -/
def isWordChar (c : Char) : Bool := c.isAlphanum || c == '_'

/--
`wordStartsAt w s` holds when the pattern `w` matches at the very start of
`s` and, if anything follows the match, the next character is a non-word
character — i.e. the trailing `\b` of `re.search(rf'\b{w}\b', ...)` holds
at this position.
-/
def wordStartsAt : List Char → List Char → Bool
  | [], [] => true
  | [], c :: _ => !(isWordChar c)
  | _ :: _, [] => false
  | a :: w, c :: s => a == c && wordStartsAt w s

/--
Scan of `re.search(rf'\b{w}\b', s)`: `prevOk` records whether the current
position is preceded by the start of the string or a non-word character
(the leading `\b`).
-/
def findWordAux (w : List Char) (prevOk : Bool) : List Char → Bool
  | [] => false
  | c :: rest => (prevOk && wordStartsAt w (c :: rest)) || findWordAux w (!(isWordChar c)) rest

/-- Truth of `re.search` with pattern `\b w \b` on `s`, for a pattern `w` of word characters. -/
def findWord (w s : List Char) : Bool := findWordAux w true s

/-! ## AnomalyDetector._classify_anomalies (src/ai/anomaly_detector.py) -/

/-- Severity ordinal table; `severity_order` in `vector_store.search_similar_anomalies`. -/
def severity_order : List (String × Nat) :=
  [("low", 0), ("medium", 1), ("high", 2), ("critical", 3)]

/-- Rank of a severity label under `severity_order` (unknown labels rank 0,
as in `severity_order.get(..., 0)`). -/
def sevRank (s : String) : Nat := (severity_order.lookup s).getD 0

/--
The fixed severity thresholds of `_classify_anomalies`:
`z >= 4.0 → critical`, `z >= 3.0 → high`, `z >= 2.5 → medium`, else `low`.
-/
def severityOf (z : ℚ) : String :=
  if z ≥ 4 then "critical"
  else if z ≥ 3 then "high"
  else if z ≥ 5/2 then "medium"
  else "low"

/-- An anomaly row as consumed by `_classify_anomalies`: the two fields the
classifier reads, each possibly absent (`dict.get(..., 0)`). -/
structure AnomalyRow where
  anomaly_score : Option ℚ
  daily_return : Option ℚ
deriving DecidableEq, Repr

/-- A classified anomaly: the original row plus the keys the classifier adds. -/
structure ClassifiedAnomaly where
  row : AnomalyRow
  severity : String
  z_score_abs : ℚ
deriving DecidableEq, Repr

/--
`AnomalyDetector._classify_anomalies`: compute `z = |anomaly_score|`, fall
back to `|daily_return| * 100` when that is zero, then attach the severity
label and `z_score_abs`.
-/
def classify_anomalies (rows : List AnomalyRow) : List ClassifiedAnomaly :=
  rows.map (fun a =>
    let z0 := |(a.anomaly_score.getD 0)|
    let z := if z0 = 0 then |(a.daily_return.getD 0)| * 100 else z0
    { row := a, severity := severityOf z, z_score_abs := z })

/-! ## NaturalLanguageSQL._validate_sql (src/ai/nl_to_sql.py) -/

/-- The denylist of `_validate_sql`, in source order. -/
def dangerousKeywords : List String :=
  ["drop", "delete", "truncate", "insert", "update", "alter", "create", "grant", "revoke"]

/--
`NaturalLanguageSQL._validate_sql`. `parseOk sql` stands for the external
`sqlparse.parse(sql)` call succeeding with a non-empty statement list
(its failure message is folded into one error string here). The final
`LIMIT` check in the source only logs and never rejects, so it does not
appear. Returns `(is_valid, error_message)`.
-/
def validate_sql (parseOk : List Char → Bool) (sql : List Char) : Bool × Option String :=
  let sqlLower := pyStrip (pyLower sql)
  match dangerousKeywords.find? (fun kw => findWord kw.data sqlLower) with
  | some kw => (false, some ("Dangerous keyword " ++ kw ++ " not allowed"))
  | none =>
    if !(List.isPrefixOf "select".data sqlLower) then
      (false, some "Only SELECT queries are allowed")
    else if !(parseOk sql) then
      (false, some "Invalid SQL syntax")
    else (true, none)

/-! ## Word-boundary transfer lemmas (stripping whitespace preserves `\b kw \b` matches) -/

theorem ws_not_wordChar {c : Char} (h : c.isWhitespace = true) : isWordChar c = false := by
  simp [Char.isWhitespace] at h
  rcases h with ((h | h) | h) | h <;> subst h <;> decide

theorem word_head_ne_ws {a c : Char} (ha : isWordChar a = true) (hc : c.isWhitespace = true) :
    (a == c) = false := by
  cases hb : a == c with
  | false => rfl
  | true =>
    have : a = c := eq_of_beq hb
    subst this
    rw [ws_not_wordChar hc] at ha
    exact absurd ha (by simp)

theorem wordStartsAt_ws_head {w : List Char} {c : Char} {s : List Char}
    (hne : w ≠ []) (hw : ∀ x ∈ w, isWordChar x = true) (hc : c.isWhitespace = true) :
    wordStartsAt w (c :: s) = false := by
  cases w with
  | nil => exact absurd rfl hne
  | cons a w' =>
    have ha := hw a (List.mem_cons_self a w')
    simp [wordStartsAt, word_head_ne_ws ha hc]

theorem findWordAux_dropWhile_ws (w : List Char) (hne : w ≠ [])
    (hw : ∀ x ∈ w, isWordChar x = true) (s : List Char) :
    findWordAux w true (s.dropWhile Char.isWhitespace) = findWordAux w true s := by
  induction s with
  | nil => rfl
  | cons c rest ih =>
    by_cases hc : c.isWhitespace = true
    · rw [List.dropWhile_cons, if_pos hc, ih, findWordAux,
        wordStartsAt_ws_head hne hw hc, ws_not_wordChar hc]
      simp
    · rw [List.dropWhile_cons, if_neg hc]

theorem findWordAux_all_ws (w : List Char) (hne : w ≠ [])
    (hw : ∀ x ∈ w, isWordChar x = true) :
    ∀ (ts : List Char), (∀ x ∈ ts, x.isWhitespace = true) →
      ∀ p, findWordAux w p ts = false := by
  intro ts
  induction ts with
  | nil => intro _ p; rfl
  | cons c rest ih =>
    intro hts p
    have hc := hts c (List.mem_cons_self c rest)
    rw [findWordAux, wordStartsAt_ws_head hne hw hc,
      ih (fun x hx => hts x (List.mem_cons_of_mem c hx)) (!(isWordChar c))]
    simp

theorem wordStartsAt_append_ws {ts : List Char} (hts : ∀ x ∈ ts, x.isWhitespace = true) :
    ∀ (w u : List Char), (∀ x ∈ w, isWordChar x = true) →
      wordStartsAt w (u ++ ts) = wordStartsAt w u := by
  intro w
  induction w with
  | nil =>
    intro u _
    cases u with
    | nil =>
      cases hts2 : ts with
      | nil => rfl
      | cons c rest =>
        have hc := hts c (hts2 ▸ List.mem_cons_self c rest)
        simp [wordStartsAt, ws_not_wordChar hc]
    | cons d u' => rfl
  | cons a w' ih =>
    intro u hw
    have ha := hw a (List.mem_cons_self a w')
    have hw' : ∀ x ∈ w', isWordChar x = true := fun x hx => hw x (List.mem_cons_of_mem a hx)
    cases u with
    | nil =>
      cases hts2 : ts with
      | nil => rfl
      | cons c rest =>
        have hc := hts c (hts2 ▸ List.mem_cons_self c rest)
        simp [wordStartsAt, word_head_ne_ws ha hc]
    | cons d u' =>
      show wordStartsAt (a :: w') (d :: (u' ++ ts)) = wordStartsAt (a :: w') (d :: u')
      rw [wordStartsAt, wordStartsAt, ih u' hw']

theorem findWordAux_append_ws {w ts : List Char} (hne : w ≠ [])
    (hw : ∀ x ∈ w, isWordChar x = true) (hts : ∀ x ∈ ts, x.isWhitespace = true) :
    ∀ (s : List Char) (p : Bool), findWordAux w p (s ++ ts) = findWordAux w p s := by
  intro s
  induction s with
  | nil =>
    intro p
    exact findWordAux_all_ws w hne hw ts hts p
  | cons c rest ih =>
    intro p
    have hws := wordStartsAt_append_ws hts w (c :: rest) hw
    rw [List.cons_append] at hws
    show findWordAux w p (c :: (rest ++ ts)) = findWordAux w p (c :: rest)
    rw [findWordAux, findWordAux, hws, ih]

theorem findWord_pyStrip (w s : List Char) (hne : w ≠ [])
    (hw : ∀ x ∈ w, isWordChar x = true) :
    findWord w (pyStrip s) = findWord w s := by
  unfold findWord pyStrip
  have h1 : findWordAux w true s
      = findWordAux w true (s.dropWhile Char.isWhitespace) :=
    (findWordAux_dropWhile_ws w hne hw s).symm
  rw [h1]
  set u := s.dropWhile Char.isWhitespace with hu
  have hdec : u = (u.reverse.dropWhile Char.isWhitespace).reverse
      ++ (u.reverse.takeWhile Char.isWhitespace).reverse := by
    conv_lhs =>
      rw [← List.reverse_reverse u,
        ← List.takeWhile_append_dropWhile (p := Char.isWhitespace) (l := u.reverse)]
    rw [List.reverse_append]
  have hts : ∀ x ∈ (u.reverse.takeWhile Char.isWhitespace).reverse, x.isWhitespace = true := by
    intro x hx
    exact List.mem_takeWhile_imp (List.mem_reverse.mp hx)
  conv_rhs => rw [hdec]
  rw [findWordAux_append_ws hne hw hts]

/-! ## Claim C1 -/

theorem severityOf_spec (z : ℚ) :
    (severityOf z = "critical" ↔ 4 ≤ z) ∧
    (severityOf z = "high" ↔ 3 ≤ z ∧ z < 4) ∧
    (severityOf z = "medium" ↔ 5/2 ≤ z ∧ z < 3) ∧
    (severityOf z = "low" ↔ z < 5/2) := by
  unfold severityOf
  split_ifs with h1 h2 h3 <;>
    refine ⟨?_, ?_, ?_, ?_⟩ <;> constructor <;> intro h <;>
    first
      | rfl
      | linarith
      | (exact ⟨by linarith, by linarith⟩)
      | (exfalso; revert h; simp)

theorem severityOf_mono (z₁ z₂ : ℚ) (h : z₁ ≤ z₂) :
    sevRank (severityOf z₁) ≤ sevRank (severityOf z₂) := by
  unfold severityOf
  split_ifs <;> first | decide | (exfalso; linarith)

/--
C1: every anomaly row classified by `_classify_anomalies` gets its severity
from the computed absolute z-score by the fixed thresholds — `critical` iff
`z ≥ 4.0`, `high` iff `3.0 ≤ z < 4.0`, `medium` iff `2.5 ≤ z < 3.0`,
`low` iff `z < 2.5` — and the classification is monotone non-decreasing
in `z`.
-/
theorem anomaly_severity_thresholds :
    ∀ (rows : List AnomalyRow) (c : ClassifiedAnomaly), c ∈ classify_anomalies rows →
      ((c.severity = "critical" ↔ 4 ≤ c.z_score_abs) ∧
       (c.severity = "high" ↔ 3 ≤ c.z_score_abs ∧ c.z_score_abs < 4) ∧
       (c.severity = "medium" ↔ 5/2 ≤ c.z_score_abs ∧ c.z_score_abs < 3) ∧
       (c.severity = "low" ↔ c.z_score_abs < 5/2)) ∧
      (∀ z₁ z₂ : ℚ, z₁ ≤ z₂ → sevRank (severityOf z₁) ≤ sevRank (severityOf z₂)) := by
  intro rows c hc
  unfold classify_anomalies at hc
  obtain ⟨a, -, rfl⟩ := List.mem_map.mp hc
  exact ⟨severityOf_spec _, severityOf_mono⟩

/-- Witness for C1 at the concrete row `anomaly_score = 3`. -/
theorem anomaly_severity_thresholds_witness :
    ((({ row := ⟨some 3, none⟩, severity := "high", z_score_abs := 3 }
        : ClassifiedAnomaly).severity = "critical" ↔ 4 ≤ (3 : ℚ)) ∧
     (("high" : String) = "high" ↔ 3 ≤ (3 : ℚ) ∧ (3 : ℚ) < 4) ∧
     (("high" : String) = "medium" ↔ 5/2 ≤ (3 : ℚ) ∧ (3 : ℚ) < 3) ∧
     (("high" : String) = "low" ↔ (3 : ℚ) < 5/2)) ∧
    (∀ z₁ z₂ : ℚ, z₁ ≤ z₂ → sevRank (severityOf z₁) ≤ sevRank (severityOf z₂)) :=
  anomaly_severity_thresholds [⟨some 3, none⟩]
    ⟨⟨some 3, none⟩, "high", 3⟩ (by
      have h : classify_anomalies [⟨some 3, none⟩] = [⟨⟨some 3, none⟩, "high", 3⟩] := by
        unfold classify_anomalies
        norm_num [severityOf]
      rw [h]
      exact List.mem_singleton.mpr rfl)

/-! ## Claim C2 -/

theorem dangerous_word_chars :
    ∀ kw ∈ dangerousKeywords, kw.data ≠ [] ∧ ∀ c ∈ kw.data, isWordChar c = true := by
  decide

/--
C2: `_validate_sql` returns `is_valid = False` for every SQL string that
contains a denylisted keyword as a standalone word (case-insensitively,
anywhere), and for every string that does not begin with `select`
(case-insensitive, after trimming) — regardless of how `sqlparse` behaves.
-/
theorem validate_sql_rejects :
    ∀ (parseOk : List Char → Bool) (sql : List Char) (kw : String),
      (kw ∈ dangerousKeywords → findWord kw.data (pyLower sql) = true →
        (validate_sql parseOk sql).1 = false) ∧
      (List.isPrefixOf "select".data (pyStrip (pyLower sql)) = false →
        (validate_sql parseOk sql).1 = false) := by
  intro parseOk sql kw
  constructor
  · intro hmem hfind
    obtain ⟨hne, hw⟩ := dangerous_word_chars kw hmem
    have htrans : findWord kw.data (pyStrip (pyLower sql)) = true := by
      rw [findWord_pyStrip _ _ hne hw]
      exact hfind
    simp only [validate_sql]
    cases hfind2 : dangerousKeywords.find? (fun k => findWord k.data (pyStrip (pyLower sql))) with
    | some k => rfl
    | none =>
      exfalso
      have := List.find?_eq_none.mp hfind2 kw hmem
      simp [htrans] at this
  · intro hpre
    simp only [validate_sql]
    cases hfind2 : dangerousKeywords.find? (fun k => findWord k.data (pyStrip (pyLower sql))) with
    | some k => rfl
    | none => simp [hpre]

/-- Witness for C2: a keyword-bearing statement and a non-SELECT statement
are both rejected. -/
theorem validate_sql_rejects_witness :
    (validate_sql (fun _ => true) "DROP TABLE users".data).1 = false ∧
    (validate_sql (fun _ => true) "  update t set x = 1".data).1 = false :=
  ⟨(validate_sql_rejects (fun _ => true) "DROP TABLE users".data "drop").1
      (by decide) (by decide),
   (validate_sql_rejects (fun _ => true) "  update t set x = 1".data "drop").2
      (by decide)⟩

/-! ## NaturalLanguageSQL._extract_assets (src/ai/nl_to_sql.py) -/

/-- Python `needle in hay` substring test. -/
def isSubstring (needle : List Char) : List Char → Bool
  | [] => needle.isEmpty
  | c :: rest => needle.isPrefixOf (c :: rest) || isSubstring needle rest

/-- A character the regex class `[A-Z]` matches. -/
def upperAZ (c : Char) : Bool := 'A' ≤ c && c ≤ 'Z'

/-- Whether `[A-Z]` repeated `k` times followed by `\b` matches at the start of `s` (the first `k` characters are
uppercase letters and the character after them, if any, is a non-word
character). -/
def tickerAt (s : List Char) (k : Nat) : Bool :=
  decide (k ≤ (s.takeWhile upperAZ).length) &&
    (match s.drop k with
     | [] => true
     | c :: _ => !(isWordChar c))

/-- Greedy match of `[A-Z]{2,5}\b` at the start of `s` (backtracking from
5 letters down to 2, as Python's `re` does); returns the matched length. -/
def tryTicker (s : List Char) : Option Nat :=
  if tickerAt s 5 then some 5
  else if tickerAt s 4 then some 4
  else if tickerAt s 3 then some 3
  else if tickerAt s 2 then some 2
  else none

/--
`re.findall(r'\b[A-Z]{2,5}\b', s)`: scan left to right; `prevOk` is the
leading `\b` state. `re` resumes scanning right after a match; here the
scan instead steps one character at a time with `prevOk := false`, which
is equivalent because every matched character is an uppercase letter (a
word character), so `prevOk` stays false throughout the matched region
and no new match can begin inside it.
-/
def findTickersAux : List Char → Bool → List (List Char)
  | [], _ => []
  | c :: rest, prevOk =>
    if prevOk then
      match tryTicker (c :: rest) with
      | some k => (c :: rest).take k :: findTickersAux rest false
      | none => findTickersAux rest (!(isWordChar c))
    else findTickersAux rest (!(isWordChar c))

/-- The fixed alias table `asset_keywords` of `_extract_assets`, in source order. -/
def asset_keywords : List (String × String) :=
  [("bitcoin", "btc"), ("ethereum", "eth"), ("apple", "aapl"), ("microsoft", "msft"),
   ("google", "googl"), ("amazon", "amzn"), ("tesla", "tsla")]

/-- Python `list(set(assets))`, keeping the first occurrence of each element
(the set's iteration order is unspecified in Python; all claims about the
result are order-independent). -/
def dedupAssets (l : List (List Char)) : List (List Char) :=
  l.foldl (fun acc x => if acc.contains x then acc else acc ++ [x]) []

/--
`NaturalLanguageSQL._extract_assets`: union of (a) alias-table hits
(substring containment of the common name) and (b) `\b[A-Z]{2,5}\b`
matches on `text.upper()`, lower-cased, then de-duplicated.
-/
def extract_assets (text : List Char) : List (List Char) :=
  let fromAliases := (asset_keywords.filter (fun p => isSubstring p.1.data text)).map
    (fun p => p.2.data)
  let tickers := (findTickersAux (pyUpper text) true).map pyLower
  dedupAssets (fromAliases ++ tickers)

/--
C3 (evaluation at the claim's input): on the lower-cased query
`"Compare Bitcoin and Ethereum performance"`, `_extract_assets` returns the
symbol set `{btc, eth, and}` — the connective `and` is picked up as well,
because the whole query is upper-cased before the uppercase-ticker regex
runs, so the extraction does NOT yield exactly `{btc, eth}`.
-/
theorem extract_assets_compare_includes_and :
    extract_assets (pyLower "Compare Bitcoin and Ethereum performance".data) =
      ["btc".data, "eth".data, "and".data] ∧
    "and".data ∈ extract_assets (pyLower "Compare Bitcoin and Ethereum performance".data) ∧
    ¬("and".data = "btc".data ∨ "and".data = "eth".data) := by
  refine ⟨by decide, by decide, by decide⟩

/-! ## FinancialVectorStore._format_results (src/ai/vector_store.py) -/

/-- Result entry returned by `_format_results`. -/
structure SimilarityMatch where
  id : String
  description : String
  metadata : List (String × String)
  similarity : ℚ
  relevance : String
deriving DecidableEq, Repr

/-- The raw ChromaDB query result: parallel nested lists, one inner list per
query embedding (the code always sends one query and reads index `[0]`). -/
structure ChromaQueryResults where
  ids : List (List String)
  documents : List (List String)
  metadatas : List (List (List (String × String)))
  distances : List (List ℚ)
deriving Repr

/-- The relevance bucket applied to `1 - distance` in `_format_results`
(the source inlines this conditional expression). -/
def relevanceOf (sim : ℚ) : String :=
  if sim > 4/5 then "high" else if sim > 3/5 then "medium" else "low"

/--
`FinancialVectorStore._format_results`: similarity is `1 - distance`
(no clamping in the source) and relevance is bucketed at `> 0.8` / `> 0.6`.
Out-of-range parallel indices (which would raise `IndexError` in Python,
but cannot occur for well-formed ChromaDB output) are skipped.
-/
def format_results (res : ChromaQueryResults) : List SimilarityMatch :=
  match res.ids.head? with
  | none => []
  | some ids0 =>
    if ids0.isEmpty then [] else
    let docs0 := res.documents.head?.getD []
    let metas0 := res.metadatas.head?.getD []
    let dists0 := res.distances.head?.getD []
    (List.range ids0.length).filterMap (fun i =>
      match ids0[i]?, docs0[i]?, metas0[i]?, dists0[i]? with
      | some idv, some doc, some md, some d =>
        some { id := idv, description := doc, metadata := md,
               similarity := 1 - d, relevance := relevanceOf (1 - d) }
      | _, _, _, _ => none)

theorem relevanceOf_spec (sim : ℚ) :
    (relevanceOf sim = "high" ↔ 4/5 < sim) ∧
    (relevanceOf sim = "medium" ↔ 3/5 < sim ∧ sim ≤ 4/5) ∧
    (relevanceOf sim = "low" ↔ sim ≤ 3/5) := by
  unfold relevanceOf
  split_ifs with h1 h2 <;>
    refine ⟨?_, ?_, ?_⟩ <;> constructor <;> intro h <;>
    first
      | rfl
      | linarith
      | (exact ⟨by linarith, by linarith⟩)
      | (exfalso; revert h; simp)

/--
Counterexample to C4: on a result with distance `1.5` (possible for
cosine/L2 distances), `_format_results` produces similarity `-0.5`,
which lies outside `[0, 1]` — the similarity is NOT clamped.
-/
theorem format_results_not_clamped_cex :
    (format_results
        { ids := [["a"]], documents := [["doc"]],
          metadatas := [[[]]], distances := [[3/2]] }).map SimilarityMatch.similarity
      = [-(1/2)] ∧
    ¬((0 : ℚ) ≤ -(1/2) ∧ (-(1/2) : ℚ) ≤ 1) := by
  constructor
  · norm_num [format_results, List.range_succ, List.filterMap_cons, relevanceOf]
  · norm_num

/--
C4 (amended): every `SimilarityMatch` produced by `_format_results` has
`similarity = 1 - d` for a distance `d` of the underlying result (with no
clamping, so it can lie outside `[0, 1]`), and its relevance bucket is
`high` iff `similarity > 0.8`, `medium` iff `0.6 < similarity ≤ 0.8`, and
`low` iff `similarity ≤ 0.6`.
-/
theorem format_results_similarity_relevance :
    ∀ (res : ChromaQueryResults) (m : SimilarityMatch), m ∈ format_results res →
      (1 - m.similarity) ∈ (res.distances.head?.getD []) ∧
      (m.relevance = "high" ↔ m.similarity > 4/5) ∧
      (m.relevance = "medium" ↔ 3/5 < m.similarity ∧ m.similarity ≤ 4/5) ∧
      (m.relevance = "low" ↔ m.similarity ≤ 3/5) := by
  intro res m hm
  unfold format_results at hm
  rcases hh : res.ids.head? with _ | ids0
  · simp only [hh] at hm
    exact absurd hm (List.not_mem_nil m)
  · simp only [hh] at hm
    by_cases he : ids0.isEmpty = true
    · rw [if_pos he] at hm
      exact absurd hm (List.not_mem_nil m)
    · rw [if_neg he] at hm
      obtain ⟨i, -, hi⟩ := List.mem_filterMap.mp hm
      rcases h1 : ids0[i]? with _ | idv
      · simp [h1] at hi
      rcases h2 : (res.documents.head?.getD [])[i]? with _ | doc
      · simp [h1, h2] at hi
      rcases h3 : (res.metadatas.head?.getD [])[i]? with _ | md
      · simp [h1, h2, h3] at hi
      rcases h4 : (res.distances.head?.getD [])[i]? with _ | d
      · simp [h1, h2, h3, h4] at hi
      simp only [h1, h2, h3, h4, Option.some.injEq] at hi
      subst hi
      refine ⟨?_, relevanceOf_spec (1 - d)⟩
      · show (1 - (1 - d) : ℚ) ∈ res.distances.head?.getD []
        have h5 : (1 : ℚ) - (1 - d) = d := by ring
        rw [h5]
        exact List.getElem?_mem h4

/-- Witness for C4 at a concrete result with distance `0.1`. -/
theorem format_results_similarity_relevance_witness :
    (1 - (9/10 : ℚ)) ∈ [(1/10 : ℚ)] ∧
    (("high" : String) = "high" ↔ (9/10 : ℚ) > 4/5) ∧
    (("high" : String) = "medium" ↔ 3/5 < (9/10 : ℚ) ∧ (9/10 : ℚ) ≤ 4/5) ∧
    (("high" : String) = "low" ↔ (9/10 : ℚ) ≤ 3/5) :=
  format_results_similarity_relevance
    { ids := [["a"]], documents := [["doc"]], metadatas := [[[]]], distances := [[1/10]] }
    { id := "a", description := "doc", metadata := [], similarity := 9/10, relevance := "high" }
    (by norm_num [format_results, List.range_succ, List.filterMap_cons, relevanceOf])

/-! ## FinancialVectorStore.search_similar_anomalies (src/ai/vector_store.py) -/

/-- Evaluation of `severity_order.get(r['metadata'].get('severity', 'low'), 0)`. -/
def sevOrdOf (m : SimilarityMatch) : Nat :=
  (severity_order.lookup ((m.metadata.lookup "severity").getD "low")).getD 0

/--
`FinancialVectorStore.search_similar_anomalies`. The embedding model and
the ChromaDB `query` call are the external parameters `embed` and
`backendQuery` (the latter keyed by the requested `n_results`); any
exception they raise is caught by the surrounding `try/except`, which
returns `[]`. A `min_severity` label outside `severity_order` raises
`KeyError` inside the `try` (the early `min_severity in severity_order`
check in the source is dead code: its body is `pass`), so it also yields
`[]`. A non-empty `min_severity` post-filters by severity ordinal and
truncates to `n_results`; the store itself is asked for `n_results * 2`.
-/
def search_similar_anomalies
    (embed : String → Except String Unit)
    (backendQuery : Nat → Except String ChromaQueryResults)
    (query : String) (n_results : Nat) (min_severity : Option String) :
    List SimilarityMatch :=
  match embed query with
  | .error _ => []
  | .ok _ =>
    match backendQuery (n_results * 2) with
    | .error _ => []
    | .ok results =>
      let formatted := format_results results
      match min_severity with
      | none => formatted
      | some ms =>
        if ms == "" then formatted
        else
          match severity_order.lookup ms with
          | none => []
          | some minLevel =>
            (formatted.filter (fun r => decide (minLevel ≤ sevOrdOf r))).take n_results

/--
C5: with a (valid, non-empty) minimum-severity filter,
`search_similar_anomalies` asks the backing store for `2k` candidates,
keeps only results whose metadata severity ordinal is at least that of
`min_severity`, and returns at most `k` of them; and when the embedding
or the backend fails, it returns `[]` instead of raising.
-/
theorem search_similar_anomalies_filter :
    ∀ (embed : String → Except String Unit)
      (backendQuery : Nat → Except String ChromaQueryResults)
      (query : String) (k : Nat) (ms : String) (lvl : Nat) (r : ChromaQueryResults),
      (embed query = .ok () → backendQuery (k * 2) = .ok r →
        severity_order.lookup ms = some lvl → ms ≠ "" →
        (search_similar_anomalies embed backendQuery query k (some ms)
          = ((format_results r).filter (fun m => decide (lvl ≤ sevOrdOf m))).take k ∧
        (search_similar_anomalies embed backendQuery query k (some ms)).length ≤ k ∧
        ∀ m ∈ search_similar_anomalies embed backendQuery query k (some ms), lvl ≤ sevOrdOf m)) ∧
      (∀ e, embed query = .error e →
        search_similar_anomalies embed backendQuery query k (some ms) = []) ∧
      (∀ e, embed query = .ok () → backendQuery (k * 2) = .error e →
        search_similar_anomalies embed backendQuery query k (some ms) = []) := by
  intro embed backendQuery query k ms lvl r
  refine ⟨?_, ?_, ?_⟩
  · intro h1 h2 h3 h4
    have heq : search_similar_anomalies embed backendQuery query k (some ms)
        = ((format_results r).filter (fun m => decide (lvl ≤ sevOrdOf m))).take k := by
      unfold search_similar_anomalies
      rw [h1, h2]
      have hms : (ms == "") = false := by
        simp [h4]
      simp only [hms, Bool.false_eq_true, if_false, h3]
    refine ⟨heq, ?_, ?_⟩
    · rw [heq]
      exact List.length_take_le k _
    · intro m hm
      rw [heq] at hm
      have := List.mem_filter.mp (List.mem_of_mem_take hm)
      exact of_decide_eq_true this.2
  · intro e he
    unfold search_similar_anomalies
    rw [he]
  · intro e h1 h2
    unfold search_similar_anomalies
    rw [h1, h2]

/-- A concrete two-entry ChromaDB anomaly result used in the C5 witness. -/
def demoAnomalyResults : ChromaQueryResults :=
  { ids := [["x", "y"]], documents := [["dx", "dy"]],
    metadatas := [[[("severity", "high")], [("severity", "low")]]],
    distances := [[0, 0]] }

/-- The C5 witness search call: both externals succeed, `min_severity = "medium"`, `k = 1`. -/
def demoAnomalySearch : List SimilarityMatch :=
  search_similar_anomalies (fun _ => Except.ok ())
    (fun _ => Except.ok demoAnomalyResults) "q" 1 (some "medium")

/-- Witness for C5: a two-entry store with severities `high` and `low`,
`min_severity = "medium"`, `k = 1`. -/
theorem search_similar_anomalies_filter_witness :
    demoAnomalySearch
        = ((format_results demoAnomalyResults).filter
            (fun m => decide (1 ≤ sevOrdOf m))).take 1 ∧
      demoAnomalySearch.length ≤ 1 :=
  have h := (search_similar_anomalies_filter (fun _ => Except.ok ())
      (fun _ => Except.ok demoAnomalyResults) "q" 1 "medium" 1 demoAnomalyResults).1
    rfl rfl (by decide) (by decide)
  ⟨h.1, h.2.1⟩

/-! ## HuggingFaceAPI (src/ai/hf_api.py) -/

/-- One instant of `datetime.now()`: calendar date (day number) and
wall-clock time in seconds. -/
structure Now where
  date : Int
  time : ℚ
deriving DecidableEq, Repr

/-- The configuration consumed by `HuggingFaceAPI`: the rate-limit ceilings
and the string rendering of `config.temperature` used in cache keys. -/
structure HFConfig where
  daily_limit : Nat
  monthly_limit : Nat
  temperature : String
deriving DecidableEq, Repr

/-- The mutable counters and cache of a `HuggingFaceAPI` instance.
The cache maps a key to `(generated_text, cached_at_seconds)`. -/
structure HFState where
  requests_today : Nat
  last_reset_date : Int
  total_requests_month : Nat
  last_request_time : Option ℚ
  cache : List (String × (String × ℚ))
deriving DecidableEq, Repr

/-- One HTTP exchange of `requests.post` as `generate_text` observes it:
a 2xx response carrying `generated_text` (`ok (some t)`; `ok none` is a
non-list or empty JSON payload), a 503 "model loading" response, another
HTTP error status, a timeout, or a transport error. -/
inductive HttpResp where
  | ok (body : Option String)
  | loading
  | httpError
  | timeout
  | netError
deriving DecidableEq, Repr

/-- Python `s[:n]`. -/
def strTake (s : String) (n : Nat) : String := String.mk (s.data.take n)

/-- Key built by `HuggingFaceAPI._get_cache_key`:
`f"{prompt[:100]}_{max_new_tokens}_{temperature}"`. -/
def cacheKey (cfg : HFConfig) (prompt : String) (maxLength : Nat) : String :=
  strTake prompt 100 ++ "_" ++ toString maxLength ++ "_" ++ cfg.temperature

/-- Model of `HuggingFaceAPI._check_cache`: a hit younger than the 1-hour TTL is
returned; an expired entry is deleted. -/
def check_cache (now : Now) (key : String) (s : HFState) : Option String × HFState :=
  match s.cache.lookup key with
  | none => (none, s)
  | some (text, t) =>
    if now.time - t < 3600 then (some text, s)
    else (none, { s with cache := s.cache.filter (fun p => p.1 != key) })

/-- Python `self.cache[key] = (text, now)` (dict assignment). -/
def cacheSet (cache : List (String × (String × ℚ))) (key : String) (v : String × ℚ) :
    List (String × (String × ℚ)) :=
  (key, v) :: cache.filter (fun p => p.1 != key)

/--
`HuggingFaceAPI._check_rate_limits`: reset the daily counter on date
rollover, then refuse when the daily or monthly cap is reached. The
1-second-spacing branch only sleeps (no state change) and is omitted.
Returns `((can_proceed, reason), new_state)`.
-/
def check_rate_limits (cfg : HFConfig) (now : Now) (s : HFState) :
    (Bool × Option String) × HFState :=
  let s1 := if now.date != s.last_reset_date
            then { s with requests_today := 0, last_reset_date := now.date }
            else s
  if cfg.daily_limit ≤ s1.requests_today then
    ((false, some ("Daily limit reached (" ++ toString cfg.daily_limit ++ " requests)")), s1)
  else if cfg.monthly_limit ≤ s1.total_requests_month then
    ((false, some ("Monthly limit reached (" ++ toString cfg.monthly_limit ++ " requests)")), s1)
  else ((true, none), s1)

/-- What one `generate_text` call produces: the returned text, the new
instance state, how many HTTP requests were issued, and the rate-limit
reason logged when the call was refused. -/
structure GenOut where
  result : Option String
  state : HFState
  netCalls : Nat
  refusal : Option String
deriving DecidableEq, Repr

/--
`HuggingFaceAPI.generate_text`. The network is the oracle `net`, indexed by
a running request counter starting at `idx` (each `requests.post` consumes
one index). Mirrors the source order: cache check (a cached empty string is
falsy and does not return early), rate-limit check, POST with one retry on
a 503 "model loading" response, `raise_for_status`, counter updates (only
after a 2xx), payload extraction, and caching of non-empty results. All
request exceptions are caught and yield `none`. `datetime.now()` is fixed
to one instant `now` for the duration of the call.
-/
def generate_text (cfg : HFConfig) (now : Now) (net : Nat → HttpResp) (idx : Nat)
    (s : HFState) (prompt : String) (maxLength : Nat) (useCache : Bool) : GenOut :=
  let key := cacheKey cfg prompt maxLength
  let cacheRes := if useCache then check_cache now key s else (none, s)
  let s1 := cacheRes.2
  if cacheRes.1.getD "" != "" then
    { result := cacheRes.1, state := s1, netCalls := 0, refusal := none }
  else
    let rl := check_rate_limits cfg now s1
    let s2 := rl.2
    if !rl.1.1 then
      { result := none, state := s2, netCalls := 0, refusal := rl.1.2 }
    else
      let first := net idx
      let rc : HttpResp × Nat :=
        match first with
        | HttpResp.loading => (net (idx + 1), 2)
        | r => (r, 1)
      match rc.1 with
      | HttpResp.ok body =>
        let s3 := { s2 with requests_today := s2.requests_today + 1,
                            total_requests_month := s2.total_requests_month + 1,
                            last_request_time := some now.time }
        match body with
        | some t =>
          let s4 := if useCache && t != ""
                    then { s3 with cache := cacheSet s3.cache key (t, now.time) }
                    else s3
          { result := some t, state := s4, netCalls := rc.2, refusal := none }
        | none => { result := none, state := s3, netCalls := rc.2, refusal := none }
      | _ => { result := none, state := s2, netCalls := rc.2, refusal := none }

/-! ## Claim C6 -/

theorem check_cache_counters (now : Now) (k : String) (s : HFState) :
    (check_cache now k s).2.requests_today = s.requests_today ∧
    (check_cache now k s).2.last_reset_date = s.last_reset_date := by
  unfold check_cache
  rcases s.cache.lookup k with _ | ⟨t, tt⟩
  · exact ⟨rfl, rfl⟩
  · dsimp only
    split_ifs <;> exact ⟨rfl, rfl⟩

/--
C6 (amended): when the daily quota is already exhausted
(`requests_today ≥ daily_limit`, no date rollover), any `generate_text`
call that is not answered from the cache (caching disabled, or the cache
check yields nothing truthy) returns `None` with no network request, and
the logged refusal reason is the daily-limit message.
-/
theorem generate_text_daily_limit :
    ∀ (cfg : HFConfig) (now : Now) (net : Nat → HttpResp) (idx : Nat) (s : HFState)
      (prompt : String) (maxLength : Nat) (useCache : Bool),
      now.date = s.last_reset_date →
      cfg.daily_limit ≤ s.requests_today →
      (useCache = false ∨
        (check_cache now (cacheKey cfg prompt maxLength) s).1.getD "" = "") →
      (generate_text cfg now net idx s prompt maxLength useCache).result = none ∧
      (generate_text cfg now net idx s prompt maxLength useCache).netCalls = 0 ∧
      (generate_text cfg now net idx s prompt maxLength useCache).refusal =
        some ("Daily limit reached (" ++ toString cfg.daily_limit ++ " requests)") := by
  intro cfg now net idx s prompt maxLength useCache hdate hlim hcm
  simp only [generate_text]
  set cr := (if useCache then check_cache now (cacheKey cfg prompt maxLength) s
             else ((none : Option String), s)) with hcr
  have hcond : (cr.1.getD "" != "") = false := by
    rcases hcm with h | h
    · rw [hcr, h]
      simp
    · cases useCache with
      | false => rw [hcr]; simp
      | true =>
        rw [hcr, if_pos rfl, h]
        simp
  have hct : cr.2.requests_today = s.requests_today ∧
      cr.2.last_reset_date = s.last_reset_date := by
    cases useCache with
    | false => rw [hcr]; exact ⟨rfl, rfl⟩
    | true => rw [hcr, if_pos rfl]; exact check_cache_counters now _ s
  have hrl : check_rate_limits cfg now cr.2
      = ((false, some ("Daily limit reached (" ++ toString cfg.daily_limit ++ " requests)")),
         cr.2) := by
    unfold check_rate_limits
    have h1 : (now.date != cr.2.last_reset_date) = false := by
      simp [hct.2, hdate]
    rw [h1]
    simp only [Bool.false_eq_true, if_false]
    rw [if_pos (hct.1 ▸ hlim)]
  rw [hcond, hrl]
  simp

/-- Concrete configuration for the hf_api scenarios: daily limit 1. -/
def demoCfg : HFConfig := { daily_limit := 1, monthly_limit := 1000, temperature := "0.3" }

/-- A state in which the single daily request has been spent and its result
(for prompt `"p"`, `max_length = 500`) sits in the cache (cached at t=100s). -/
def demoLimitState : HFState :=
  { requests_today := 1, last_reset_date := 0, total_requests_month := 1,
    last_request_time := some 100,
    cache := [(cacheKey demoCfg "p" 500, ("hello", 100))] }

/--
Counterexample to C6 as stated: with the daily quota exhausted and no date
rollover, a subsequent `generate_text` call for an already-cached prompt
returns the cached text (not `None`) — only cache-missing calls are refused.
-/
theorem generate_text_cache_hit_despite_limit_cex :
    demoCfg.daily_limit ≤ demoLimitState.requests_today ∧
    (({ date := 0, time := 200 } : Now)).date = demoLimitState.last_reset_date ∧
    (generate_text demoCfg { date := 0, time := 200 } (fun _ => HttpResp.netError) 0
        demoLimitState "p" 500 true).result = some "hello" ∧
    (generate_text demoCfg { date := 0, time := 200 } (fun _ => HttpResp.netError) 0
        demoLimitState "p" 500 true).netCalls = 0 := by
  refine ⟨by decide, by decide, ?_, ?_⟩ <;>
    · norm_num [generate_text, check_cache, demoLimitState]
      simp

/-- Witness for C6 at the same concrete state with caching disabled. -/
theorem generate_text_daily_limit_witness :
    (generate_text demoCfg { date := 0, time := 200 } (fun _ => HttpResp.netError) 0
        demoLimitState "p" 500 false).result = none ∧
    (generate_text demoCfg { date := 0, time := 200 } (fun _ => HttpResp.netError) 0
        demoLimitState "p" 500 false).netCalls = 0 ∧
    (generate_text demoCfg { date := 0, time := 200 } (fun _ => HttpResp.netError) 0
        demoLimitState "p" 500 false).refusal =
      some ("Daily limit reached (" ++ toString demoCfg.daily_limit ++ " requests)") :=
  generate_text_daily_limit demoCfg { date := 0, time := 200 } (fun _ => HttpResp.netError) 0
    demoLimitState "p" 500 false rfl (by decide) (Or.inl rfl)

/-! ## Claim C7 -/

theorem lookup_cacheSet (c : List (String × (String × ℚ))) (k : String) (v : String × ℚ) :
    List.lookup k (cacheSet c k v) = some v := by
  unfold cacheSet
  simp [List.lookup]

/--
C7 (amended): if a cache-missing `generate_text` call with caching enabled
gets a single successful response with non-empty text, a second identical
call within the 1-hour TTL returns the cached text and issues no network
request — so exactly one request is made across the two calls whenever the
first call's request was not retried after a 503.
-/
theorem generate_text_cached_second_call :
    ∀ (cfg : HFConfig) (net : Nat → HttpResp) (idx : Nat) (s : HFState)
      (prompt : String) (maxLength : Nat) (t : String) (now1 now2 : Now),
      s.cache.lookup (cacheKey cfg prompt maxLength) = none →
      now1.date = s.last_reset_date →
      s.requests_today < cfg.daily_limit →
      s.total_requests_month < cfg.monthly_limit →
      net idx = HttpResp.ok (some t) →
      t ≠ "" →
      now2.time - now1.time < 3600 →
      (generate_text cfg now1 net idx s prompt maxLength true).result = some t ∧
      (generate_text cfg now1 net idx s prompt maxLength true).netCalls = 1 ∧
      (generate_text cfg now2 net
          (idx + (generate_text cfg now1 net idx s prompt maxLength true).netCalls)
          (generate_text cfg now1 net idx s prompt maxLength true).state
          prompt maxLength true).result = some t ∧
      (generate_text cfg now2 net
          (idx + (generate_text cfg now1 net idx s prompt maxLength true).netCalls)
          (generate_text cfg now1 net idx s prompt maxLength true).state
          prompt maxLength true).netCalls = 0 := by
  intro cfg net idx s prompt maxLength t now1 now2 hlk hdate hday hmon hnet ht htime
  have hcc : check_cache now1 (cacheKey cfg prompt maxLength) s = (none, s) := by
    unfold check_cache
    rw [hlk]
  have hrl : check_rate_limits cfg now1 s = ((true, none), s) := by
    unfold check_rate_limits
    have hd : (now1.date != s.last_reset_date) = false := by simp [hdate]
    rw [hd]
    simp only [Bool.false_eq_true, if_false]
    rw [if_neg (Nat.not_le.mpr hday), if_neg (Nat.not_le.mpr hmon)]
  have ht' : (t != "") = true := by simp [ht]
  have h1 : generate_text cfg now1 net idx s prompt maxLength true =
      { result := some t,
        state :=
          { requests_today := s.requests_today + 1,
            last_reset_date := s.last_reset_date,
            total_requests_month := s.total_requests_month + 1,
            last_request_time := some now1.time,
            cache := cacheSet s.cache (cacheKey cfg prompt maxLength) (t, now1.time) },
        netCalls := 1, refusal := none } := by
    simp [generate_text, hcc, hrl, hnet, ht']
  have hcc2 : check_cache now2 (cacheKey cfg prompt maxLength)
      (generate_text cfg now1 net idx s prompt maxLength true).state =
      (some t, (generate_text cfg now1 net idx s prompt maxLength true).state) := by
    rw [h1]
    unfold check_cache
    dsimp only
    rw [lookup_cacheSet]
    dsimp only
    rw [if_pos htime]
  have h2res : (generate_text cfg now2 net
      (idx + (generate_text cfg now1 net idx s prompt maxLength true).netCalls)
      (generate_text cfg now1 net idx s prompt maxLength true).state
      prompt maxLength true).result = some t ∧
      (generate_text cfg now2 net
      (idx + (generate_text cfg now1 net idx s prompt maxLength true).netCalls)
      (generate_text cfg now1 net idx s prompt maxLength true).state
      prompt maxLength true).netCalls = 0 := by
    constructor <;>
      · conv_lhs => rw [generate_text]
        rw [if_pos rfl]
        simp [hcc2, ht']
  exact ⟨by rw [h1], by rw [h1], h2res.1, h2res.2⟩

/-- A network that always answers 200 with text `"hi"`. -/
def demoNetOk : Nat → HttpResp := fun _ => HttpResp.ok (some "hi")

/-- A network whose first response is a 503 "model loading" and which then
answers 200 with text `"hi"`. -/
def demoNetRetry : Nat → HttpResp :=
  fun i => if i = 0 then HttpResp.loading else HttpResp.ok (some "hi")

/-- A fresh `HuggingFaceAPI` state: no requests issued, empty cache. -/
def demoFreshState : HFState :=
  { requests_today := 0, last_reset_date := 0, total_requests_month := 0,
    last_request_time := none, cache := [] }

/-- First witness call for C7 (no retry). -/
def demoFirstCall : GenOut :=
  generate_text demoCfg { date := 0, time := 100 } demoNetOk 0 demoFreshState "p" 500 true

/-- Second witness call for C7, 100 seconds later. -/
def demoSecondCall : GenOut :=
  generate_text demoCfg { date := 0, time := 200 } demoNetOk (0 + demoFirstCall.netCalls)
    demoFirstCall.state "p" 500 true

/-- Witness for C7: first call succeeds with one request, identical second
call within the TTL is served from cache with zero requests. -/
theorem generate_text_cached_second_call_witness :
    demoFirstCall.result = some "hi" ∧ demoFirstCall.netCalls = 1 ∧
    demoSecondCall.result = some "hi" ∧ demoSecondCall.netCalls = 0 :=
  generate_text_cached_second_call demoCfg demoNetOk 0 demoFreshState "p" 500 "hi"
    { date := 0, time := 100 } { date := 0, time := 200 }
    rfl rfl (by decide) (by decide) rfl (by decide) (by norm_num)

/-- First call against the 503-then-ok network. -/
def demoRetryFirstCall : GenOut :=
  generate_text demoCfg { date := 0, time := 100 } demoNetRetry 0 demoFreshState "p" 500 true

/-- Second call against the 503-then-ok network, 100 seconds later. -/
def demoRetrySecondCall : GenOut :=
  generate_text demoCfg { date := 0, time := 200 } demoNetRetry demoRetryFirstCall.netCalls
    demoRetryFirstCall.state "p" 500 true

/--
Counterexample to C7 as stated: when the first call's request hits the 503
"model loading" path, `generate_text` retries once, so the first call
succeeds having issued two network requests; the cached second call adds
none, and the total across the two calls is 2, not exactly 1.
-/
theorem generate_text_retry_two_requests_cex :
    demoRetryFirstCall.result = some "hi" ∧
    demoRetrySecondCall.result = some "hi" ∧
    demoRetrySecondCall.netCalls = 0 ∧
    demoRetryFirstCall.netCalls + demoRetrySecondCall.netCalls = 2 ∧
    demoRetryFirstCall.netCalls + demoRetrySecondCall.netCalls ≠ 1 := by
  have h1 : demoRetryFirstCall =
      { result := some "hi",
        state :=
          { requests_today := 1, last_reset_date := 0, total_requests_month := 1,
            last_request_time := some 100,
            cache := cacheSet demoFreshState.cache (cacheKey demoCfg "p" 500) ("hi", 100) },
        netCalls := 2, refusal := none } := by
    norm_num [demoRetryFirstCall, generate_text, check_cache, check_rate_limits,
      demoNetRetry, demoFreshState, demoCfg]
    intro h
    simp at h
  have hcc2 : check_cache { date := 0, time := 200 } (cacheKey demoCfg "p" 500)
      { requests_today := 1, last_reset_date := 0, total_requests_month := 1,
        last_request_time := some 100,
        cache := cacheSet demoFreshState.cache (cacheKey demoCfg "p" 500) ("hi", 100) }
      = (some "hi",
         { requests_today := 1, last_reset_date := 0, total_requests_month := 1,
           last_request_time := some 100,
           cache := cacheSet demoFreshState.cache (cacheKey demoCfg "p" 500) ("hi", 100) }) := by
    unfold check_cache
    dsimp only
    rw [lookup_cacheSet]
    dsimp only
    rw [if_pos (by norm_num)]
  have h2 : demoRetrySecondCall.result = some "hi" ∧ demoRetrySecondCall.netCalls = 0 := by
    rw [demoRetrySecondCall, h1]
    constructor <;>
      · conv_lhs => rw [generate_text]
        rw [if_pos rfl]
        simp [hcc2]
  exact ⟨by rw [h1], h2.1, h2.2, by rw [h1, h2.2],
    by rw [h1, h2.2]; norm_num⟩

/-! ## FinancialVectorStore.add_market_pattern (src/ai/vector_store.py) -/

/-- Model of `local_models.generate_embeddings`: the model call `encode` may fail for
any reason; on failure a zero matrix of shape `(len(texts), 384)` is
returned instead of propagating the exception. -/
def generate_embeddings (encode : List String → Except String (List (List ℚ)))
    (texts : List String) : List (List ℚ) :=
  match encode texts with
  | .ok e => e
  | .error _ => List.replicate texts.length (List.replicate 384 0)

/-- A record stored in a ChromaDB collection by `collection.add`. -/
structure StoredRecord where
  embedding : List ℚ
  document : String
  metadata : List (String × String)
deriving DecidableEq, Repr

/-- A ChromaDB collection: records keyed by id. -/
structure Collection where
  recs : List (String × StoredRecord)
deriving DecidableEq, Repr

/-- Evaluation of `collection.count()`. -/
def Collection.count (c : Collection) : Nat := c.recs.length

/-- Modelled from the spec: the ChromaDB backend is an external
collaborator, and per the spec's EmbeddingIndex contract a `collection.add`
with a duplicate `id` silently overwrites the stored record (last write
wins); a fresh `id` appends. -/
def upsertRec (recs : List (String × StoredRecord)) (id : String) (r : StoredRecord) :
    List (String × StoredRecord) :=
  if recs.any (fun p => p.1 == id) then
    recs.map (fun p => if p.1 == id then (id, r) else p)
  else recs ++ [(id, r)]

/-- Python `{'pattern_type': ..., 'timestamp': ..., **metadata}`: the later
(caller) entries override the fixed keys; insertion order is kept. -/
def dictMerge (base extra : List (String × String)) : List (String × String) :=
  base.filter (fun p => !(extra.any (fun q => q.1 == p.1))) ++ extra

/--
`FinancialVectorStore.add_market_pattern`: embed the description (one text,
row `[0]` of the matrix), build the merged metadata, and store under
`pattern_id`. `now` is the `datetime.now().isoformat()` timestamp string.
The surrounding `try/except` only catches backend/model exceptions, which
the modelled backend does not raise.
-/
def add_market_pattern (encode : List String → Except String (List (List ℚ)))
    (now : String) (c : Collection) (pattern_id pattern_description pattern_type : String)
    (metadata : List (String × String)) : Collection :=
  let embedding := (generate_embeddings encode [pattern_description]).headD []
  let full_metadata := dictMerge [("pattern_type", pattern_type), ("timestamp", now)] metadata
  { recs := upsertRec c.recs pattern_id
      { embedding := embedding, document := pattern_description, metadata := full_metadata } }

theorem beq_symm_false {a b : String} (h : (a == b) = false) : (b == a) = false := by
  cases hq : b == a
  · rfl
  · rw [show b = a from eq_of_beq hq, beq_self_eq_true] at h
    exact absurd h (by simp)

theorem lookup_cons_ne {β : Type} (l : List (String × β)) (p : String × β) (id : String)
    (h : (id == p.1) = false) : List.lookup id (p :: l) = List.lookup id l := by
  rcases p with ⟨k, v⟩
  simp only [] at h
  simp [List.lookup, h]

theorem lookup_append_not_found {β : Type} (l : List (String × β)) (id : String) (v : β)
    (hall : ∀ p ∈ l, (p.1 == id) = false) :
    List.lookup id (l ++ [(id, v)]) = some v := by
  induction l with
  | nil => simp [List.lookup]
  | cons p ps ih =>
    have hp := hall p (List.mem_cons_self p ps)
    rw [List.cons_append, lookup_cons_ne _ p id (beq_symm_false hp)]
    exact ih (fun q hq => hall q (List.mem_cons_of_mem p hq))

theorem any_upsertRec (recs : List (String × StoredRecord)) (id : String) (r : StoredRecord) :
    (upsertRec recs id r).any (fun p => p.1 == id) = true := by
  unfold upsertRec
  by_cases h : recs.any (fun p => p.1 == id) = true
  · rw [if_pos h]
    obtain ⟨p, hp, hpe⟩ := List.any_eq_true.mp h
    refine List.any_eq_true.mpr ⟨(id, r), List.mem_map.mpr ⟨p, hp, by simp [hpe]⟩, by simp⟩
  · rw [if_neg h]
    exact List.any_eq_true.mpr ⟨(id, r), List.mem_append_right _ (List.mem_singleton.mpr rfl),
      by simp⟩

theorem lookup_replaceAll (recs : List (String × StoredRecord)) (id : String) (r : StoredRecord)
    (h : recs.any (fun p => p.1 == id) = true) :
    (recs.map (fun p => if p.1 == id then (id, r) else p)).lookup id = some r := by
  induction recs with
  | nil => simp at h
  | cons p ps ih =>
    by_cases hp : (p.1 == id) = true
    · rw [List.map_cons, if_pos hp]
      simp [List.lookup]
    · have hp2 : (p.1 == id) = false := by
        revert hp
        cases p.1 == id <;> simp
      have h2 : ps.any (fun p => p.1 == id) = true := by
        simpa [List.any_cons, hp2] using h
      rw [List.map_cons, if_neg hp, lookup_cons_ne _ _ _ (beq_symm_false hp2)]
      exact ih h2

theorem lookup_upsertRec (recs : List (String × StoredRecord)) (id : String) (r : StoredRecord) :
    (upsertRec recs id r).lookup id = some r := by
  unfold upsertRec
  by_cases h : recs.any (fun p => p.1 == id) = true
  · rw [if_pos h]
    exact lookup_replaceAll recs id r h
  · rw [if_neg h]
    refine lookup_append_not_found recs id r ?_
    intro p hp
    cases hq : p.1 == id
    · rfl
    · exact absurd (List.any_eq_true.mpr ⟨p, hp, hq⟩) h

theorem count_upsertRec_of_any (recs : List (String × StoredRecord)) (id : String)
    (r : StoredRecord) (h : recs.any (fun p => p.1 == id) = true) :
    (upsertRec recs id r).length = recs.length := by
  unfold upsertRec
  rw [if_pos h, List.length_map]

theorem keys_replaceAll (recs : List (String × StoredRecord)) (id : String) (r : StoredRecord) :
    (recs.map (fun p => if p.1 == id then (id, r) else p)).map Prod.fst = recs.map Prod.fst := by
  induction recs with
  | nil => rfl
  | cons p ps ih =>
    by_cases hp : (p.1 == id) = true
    · simp only [List.map_cons, if_pos hp, ih]
      rw [show id = p.1 from (eq_of_beq hp).symm]
    · simp only [List.map_cons, if_neg hp, ih]

theorem nodup_keys_upsertRec (recs : List (String × StoredRecord)) (id : String)
    (r : StoredRecord) (hnd : (recs.map Prod.fst).Nodup) :
    ((upsertRec recs id r).map Prod.fst).Nodup := by
  unfold upsertRec
  by_cases h : recs.any (fun p => p.1 == id) = true
  · rw [if_pos h, keys_replaceAll]
    exact hnd
  · rw [if_neg h, List.map_append]
    rw [List.nodup_append]
    refine ⟨hnd, List.nodup_singleton id, ?_⟩
    intro a ha hb
    rw [List.map_singleton, List.mem_singleton] at hb
    subst hb
    obtain ⟨p, hp, hpa⟩ := List.mem_map.mp ha
    exact absurd (List.any_eq_true.mpr ⟨p, hp, by rw [hpa]; exact beq_self_eq_true a⟩) h

theorem filter_replace_none (l : List (String × StoredRecord)) (id : String) (r : StoredRecord)
    (hall : ∀ q ∈ l, (q.1 == id) = false) :
    (l.map (fun p => if p.1 == id then (id, r) else p)).filter (fun p => p.1 == id) = [] := by
  induction l with
  | nil => rfl
  | cons q qs ih =>
    have hq := hall q (List.mem_cons_self q qs)
    rw [List.map_cons, if_neg (by simp [hq]), List.filter_cons_of_neg (by simp [hq])]
    exact ih (fun x hx => hall x (List.mem_cons_of_mem q hx))

theorem filter_count_upsertRec (recs : List (String × StoredRecord)) (id : String)
    (r : StoredRecord) (hnd : (recs.map Prod.fst).Nodup) :
    ((upsertRec recs id r).filter (fun p => p.1 == id)).length = 1 := by
  unfold upsertRec
  by_cases h : recs.any (fun p => p.1 == id) = true
  · rw [if_pos h]
    induction recs with
    | nil => simp at h
    | cons p ps ih =>
      rw [List.map_cons] at hnd ⊢
      have hnd1 := List.nodup_cons.mp hnd
      by_cases hp : (p.1 == id) = true
      · rw [if_pos hp, List.filter_cons_of_pos (by simp)]
        have hall : ∀ q ∈ ps, (q.1 == id) = false := by
          intro q hq
          cases hqe : q.1 == id
          · rfl
          · exfalso
            apply hnd1.1
            refine List.mem_map.mpr ⟨q, hq, ?_⟩
            rw [eq_of_beq hqe, eq_of_beq hp]
        rw [filter_replace_none ps id r hall]
        rfl
      · have hp2 : (p.1 == id) = false := by
          revert hp
          cases p.1 == id <;> simp
        have h2 : ps.any (fun p => p.1 == id) = true := by
          simpa [List.any_cons, hp2] using h
        rw [if_neg hp, List.filter_cons_of_neg (by simp [hp2])]
        exact ih hnd1.2 h2
  · rw [if_neg h, List.filter_append]
    have h1 : recs.filter (fun p => p.1 == id) = [] := by
      refine List.filter_eq_nil_iff.mpr ?_
      intro p hp
      cases hq : p.1 == id
      · simp
      · exact absurd (List.any_eq_true.mpr ⟨p, hp, hq⟩) h
    rw [h1, List.filter_cons_of_pos (by simp)]
    rfl

/--
C8: calling the embedding index's add operation (`add_market_pattern`)
twice with the same id and different descriptions leaves exactly one stored
record for that id, whose content (embedding, document, metadata) reflects
the second call, and the collection count after the second call equals the
count before it. Requires the store's ids to be unique, which the backend
enforces.
-/
theorem add_pattern_last_write_wins :
    ∀ (encode : List String → Except String (List (List ℚ))) (now1 now2 : String)
      (c : Collection) (id d1 t1 d2 t2 : String) (m1 m2 : List (String × String)),
      (c.recs.map Prod.fst).Nodup →
      (add_market_pattern encode now2 (add_market_pattern encode now1 c id d1 t1 m1)
          id d2 t2 m2).recs.lookup id = some
        { embedding := (generate_embeddings encode [d2]).headD [],
          document := d2,
          metadata := dictMerge [("pattern_type", t2), ("timestamp", now2)] m2 } ∧
      ((add_market_pattern encode now2 (add_market_pattern encode now1 c id d1 t1 m1)
          id d2 t2 m2).recs.filter (fun p => p.1 == id)).length = 1 ∧
      (add_market_pattern encode now2 (add_market_pattern encode now1 c id d1 t1 m1)
          id d2 t2 m2).count
        = (add_market_pattern encode now1 c id d1 t1 m1).count := by
  intro encode now1 now2 c id d1 t1 d2 t2 m1 m2 hnd
  refine ⟨lookup_upsertRec _ _ _, ?_, ?_⟩
  · exact filter_count_upsertRec _ _ _ (nodup_keys_upsertRec _ _ _ hnd)
  · exact count_upsertRec_of_any _ _ _ (any_upsertRec _ _ _)

/-- Witness for C8 starting from the empty collection. -/
theorem add_pattern_last_write_wins_witness :
    (add_market_pattern (fun _ => Except.error "down") "t2"
        (add_market_pattern (fun _ => Except.error "down") "t1" ⟨[]⟩ "p1" "d1" "ty1" [])
        "p1" "d2" "ty2" []).recs.lookup "p1" = some
      { embedding := (generate_embeddings (fun _ => Except.error "down") ["d2"]).headD [],
        document := "d2",
        metadata := dictMerge [("pattern_type", "ty2"), ("timestamp", "t2")] [] } ∧
    ((add_market_pattern (fun _ => Except.error "down") "t2"
        (add_market_pattern (fun _ => Except.error "down") "t1" ⟨[]⟩ "p1" "d1" "ty1" [])
        "p1" "d2" "ty2" []).recs.filter (fun p => p.1 == "p1")).length = 1 ∧
    (add_market_pattern (fun _ => Except.error "down") "t2"
        (add_market_pattern (fun _ => Except.error "down") "t1" ⟨[]⟩ "p1" "d1" "ty1" [])
        "p1" "d2" "ty2" []).count
      = (add_market_pattern (fun _ => Except.error "down") "t1" ⟨[]⟩ "p1" "d1" "ty1" []).count :=
  add_pattern_last_write_wins (fun _ => Except.error "down") "t1" "t2" ⟨[]⟩
    "p1" "d1" "ty1" "d2" "ty2" [] [] List.nodup_nil

/-! ## Claim C10 -/

/--
C10: `generate_embeddings` never raises — on any failure of the underlying
model it returns a zero matrix of shape `(len(texts), 384)` — and the
embedding-index add operation then silently stores an all-zero vector.
-/
theorem generate_embeddings_zero_fallback :
    ∀ (encode : List String → Except String (List (List ℚ))),
      (∀ (texts : List String) (err : String), texts ≠ [] → encode texts = .error err →
        generate_embeddings encode texts
          = List.replicate texts.length (List.replicate 384 (0:ℚ)) ∧
        (generate_embeddings encode texts).length = texts.length ∧
        ∀ v ∈ generate_embeddings encode texts, v = List.replicate 384 (0:ℚ)) ∧
      (∀ (now : String) (c : Collection) (id desc ptype : String)
          (md : List (String × String)) (err : String),
        encode [desc] = .error err →
        (add_market_pattern encode now c id desc ptype md).recs.lookup id
          = some { embedding := List.replicate 384 (0:ℚ), document := desc,
                   metadata := dictMerge [("pattern_type", ptype), ("timestamp", now)] md }) := by
  intro encode
  constructor
  · intro texts err hne herr
    have h : generate_embeddings encode texts
        = List.replicate texts.length (List.replicate 384 (0:ℚ)) := by
      unfold generate_embeddings
      rw [herr]
    refine ⟨h, ?_, ?_⟩
    · rw [h, List.length_replicate]
    · intro v hv
      rw [h] at hv
      exact List.eq_of_mem_replicate hv
  · intro now c id desc ptype md err herr
    have he : (generate_embeddings encode [desc]).headD [] = List.replicate 384 (0:ℚ) := by
      unfold generate_embeddings
      rw [herr]
      rfl
    simp only [add_market_pattern, he]
    exact lookup_upsertRec _ _ _

/-- Witness for C10 with a model that always fails. -/
theorem generate_embeddings_zero_fallback_witness :
    generate_embeddings (fun _ => Except.error "down") ["a"]
      = List.replicate 1 (List.replicate 384 (0:ℚ)) ∧
    (add_market_pattern (fun _ => Except.error "down") "t" ⟨[]⟩ "p" "a" "ty" []).recs.lookup "p"
      = some { embedding := List.replicate 384 (0:ℚ), document := "a",
               metadata := dictMerge [("pattern_type", "ty"), ("timestamp", "t")] [] } :=
  ⟨((generate_embeddings_zero_fallback (fun _ => Except.error "down")).1 ["a"] "down"
      (by decide) rfl).1,
   (generate_embeddings_zero_fallback (fun _ => Except.error "down")).2 "t" ⟨[]⟩ "p" "a" "ty"
      [] "down" rfl⟩

/-! ## NaturalLanguageSQL._generate_sql_template and process_query (src/ai/nl_to_sql.py) -/

/-- Value of `int(...)` on a digit run. -/
def parseNat (run : List Char) : Nat :=
  run.foldl (fun a c => a * 10 + (c.toNat - 48)) 0

/--
`re.findall(r'\b\d+\b', s)`: maximal digit runs flanked by word boundaries.
As with the ticker scan, the structural step-by-one recursion with
`prevOk := false` after a run is equivalent to `re`'s resume-after-match,
because digits are word characters.
-/
def findNumbersAux : List Char → Bool → List (List Char)
  | [], _ => []
  | c :: rest, prevOk =>
    if prevOk && c.isDigit then
      let run := (c :: rest).takeWhile Char.isDigit
      let ok := match (c :: rest).dropWhile Char.isDigit with
                | [] => true
                | d :: _ => !(isWordChar d)
      if ok then run :: findNumbersAux rest false
      else findNumbersAux rest false
    else findNumbersAux rest (!(isWordChar c))

/-- Model of `NaturalLanguageSQL._extract_number`: first whole-word integer literal
in the text, or the default. -/
def extract_number (text : List Char) (default : Nat) : Nat :=
  match findNumbersAux text true with
  | [] => default
  | n :: _ => parseNat n

/-- A single-quote character, used when assembling SQL literals. -/
def sqQuote : String := String.mk [Char.ofNat 39]

/-- Python `sep.join(strs)`. -/
def joinSep (sep : String) : List String → String
  | [] => ""
  | [x] => x
  | x :: xs => x ++ sep ++ joinSep sep xs

/-- Python `substring in text`. -/
def hasSub (sub : String) (t : List Char) : Bool := isSubstring sub.data t

/-- The SQL template texts of `_generate_sql_template` (whitespace collapsed
to single spaces; the templates' token sequences are as in the source). -/
def sqlTopStocksReturn (limit : Nat) : String :=
  "SELECT asset_symbol, asset_name, total_return, sharpe_ratio, sector " ++
  "FROM mart_asset_performance WHERE asset_type = " ++ sqQuote ++ "stock" ++ sqQuote ++
  " ORDER BY total_return DESC LIMIT " ++ toString limit

def sqlTopStocksVolatility (limit : Nat) : String :=
  "SELECT ticker, company_name, volatility_20d, daily_return, sector " ++
  "FROM int_stock_daily_analysis WHERE date = (SELECT MAX(date) FROM int_stock_daily_analysis) " ++
  "ORDER BY volatility_20d DESC LIMIT " ++ toString limit

def sqlTopStocksVolume (limit : Nat) : String :=
  "SELECT ticker, company_name, volume, close_price, daily_return " ++
  "FROM int_stock_daily_analysis WHERE date = (SELECT MAX(date) FROM int_stock_daily_analysis) " ++
  "ORDER BY volume DESC LIMIT " ++ toString limit

def sqlStocksDefault : String :=
  "SELECT ticker, company_name, close_price, daily_return, sector " ++
  "FROM int_stock_daily_analysis WHERE date = (SELECT MAX(date) FROM int_stock_daily_analysis) " ++
  "ORDER BY ticker LIMIT 20"

def sqlTopCrypto (limit : Nat) : String :=
  "SELECT symbol, name, price_usd, daily_return, volume_24h " ++
  "FROM int_crypto_analysis WHERE date = (SELECT MAX(date) FROM int_crypto_analysis) " ++
  "ORDER BY daily_return DESC LIMIT " ++ toString limit

def sqlCryptoDefault : String :=
  "SELECT symbol, name, price_usd, daily_return, ma_7d, ma_30d " ++
  "FROM int_crypto_analysis WHERE date = (SELECT MAX(date) FROM int_crypto_analysis) " ++
  "ORDER BY symbol LIMIT 20"

def sqlAvgReturnSector : String :=
  "SELECT sector, AVG(total_return) as avg_return, AVG(volatility) as avg_volatility, " ++
  "COUNT(*) as num_assets FROM mart_asset_performance WHERE asset_type = " ++
  sqQuote ++ "stock" ++ sqQuote ++ " AND sector IS NOT NULL GROUP BY sector ORDER BY avg_return DESC"

def sqlAvgReturnType : String :=
  "SELECT asset_type, AVG(total_return) as avg_return, AVG(volatility) as avg_volatility, " ++
  "COUNT(*) as num_assets FROM mart_asset_performance GROUP BY asset_type " ++
  "ORDER BY avg_return DESC"

def sqlAvgVolSector : String :=
  "SELECT sector, AVG(volatility) as avg_volatility, MAX(volatility) as max_volatility, " ++
  "MIN(volatility) as min_volatility FROM mart_asset_performance WHERE asset_type = " ++
  sqQuote ++ "stock" ++ sqQuote ++ " AND sector IS NOT NULL GROUP BY sector ORDER BY avg_volatility DESC"

def sqlCompareAssets (assets : List (List Char)) : String :=
  let assets_list := joinSep (sqQuote ++ ", " ++ sqQuote) (assets.map (fun l => String.mk l))
  "SELECT asset_symbol, asset_name, total_return, annualized_return, sharpe_ratio, volatility " ++
  "FROM mart_asset_performance WHERE LOWER(asset_symbol) IN (" ++ sqQuote ++ assets_list ++ sqQuote ++
  ") OR LOWER(asset_name) IN (" ++ sqQuote ++ assets_list ++ sqQuote ++ ") ORDER BY total_return DESC"

def sqlCompareTypes : String :=
  "SELECT asset_type, AVG(total_return) as avg_return, AVG(sharpe_ratio) as avg_sharpe, " ++
  "AVG(volatility) as avg_volatility FROM mart_asset_performance GROUP BY asset_type " ++
  "ORDER BY avg_return DESC"

def sqlMarketTrend (days : Nat) : String :=
  "SELECT date, asset_class, avg_return, return_volatility, market_regime " ++
  "FROM mart_daily_market_summary WHERE date >= CURRENT_DATE - INTERVAL " ++
  sqQuote ++ toString days ++ " days" ++ sqQuote ++ " ORDER BY date DESC, asset_class"

def sqlAnomalies : String :=
  "SELECT asset_name, date, daily_return, volume, return_z_score, anomaly_type " ++
  "FROM analytics_market_anomalies WHERE ABS(return_z_score) > 2 " ++
  "ORDER BY date DESC, ABS(return_z_score) DESC LIMIT 20"

/--
`NaturalLanguageSQL._generate_sql_template`: keyword-driven dispatch on the
intent plus literal substring checks over the lower-cased query. A branch
of the `if/elif` chain that is entered but produces no template falls
through to `none` (not to the later `elif` arms), as in Python.
`_extract_number` is applied to the original query text, `_extract_assets`
to the lower-cased text.
-/
def generate_sql_template (query : List Char) (intent : String) : Option String :=
  let ql := pyLower query
  if intent == "data_retrieval" || hasSub "show" ql || hasSub "list" ql || hasSub "get" ql then
    if hasSub "stock" ql then
      if hasSub "top" ql || hasSub "best" ql || hasSub "highest" ql then
        let limit := extract_number query 10
        if hasSub "return" ql || hasSub "performance" ql then some (sqlTopStocksReturn limit)
        else if hasSub "volatil" ql then some (sqlTopStocksVolatility limit)
        else if hasSub "volume" ql then some (sqlTopStocksVolume limit)
        else none
      else some sqlStocksDefault
    else if hasSub "crypto" ql || hasSub "bitcoin" ql || hasSub "ethereum" ql then
      if hasSub "top" ql || hasSub "best" ql then
        some (sqlTopCrypto (extract_number query 10))
      else some sqlCryptoDefault
    else none
  else if intent == "aggregation" || hasSub "average" ql || hasSub "avg" ql
      || hasSub "mean" ql then
    if hasSub "return" ql then
      if hasSub "sector" ql then some sqlAvgReturnSector else some sqlAvgReturnType
    else if hasSub "volatil" ql then
      if hasSub "sector" ql then some sqlAvgVolSector else none
    else none
  else if intent == "comparison" || hasSub "compare" ql || hasSub "vs" ql
      || hasSub "versus" ql then
    let assets := extract_assets ql
    if 2 ≤ assets.length then some (sqlCompareAssets assets) else some sqlCompareTypes
  else if intent == "trend_analysis" || hasSub "trend" ql || hasSub "over time" ql then
    let days := extract_number query 30
    if hasSub "market" ql then some (sqlMarketTrend days) else none
  else if intent == "anomaly_detection" || hasSub "anomaly" ql || hasSub "unusual" ql
      || hasSub "outlier" ql then
    some sqlAnomalies
  else none

/-- A normalized result row: column name to (stringified) value. -/
def Row : Type := List (String × String)

/-- The result dictionary of `process_query`; keys absent from a given
branch are `none`. `processing_time` is wall-clock time and is omitted. -/
structure PQResult where
  success : Bool
  error : Option String := none
  suggestion : Option String := none
  sql : Option String := none
  results : Option (List Row) := none
  row_count : Option Nat := none
  intent : String
  confidence : Option ℚ := none
  method : Option String := none

/-- Python falsiness of `sql_query` (`None` or the empty string). -/
def optFalsy (s : Option String) : Bool := s.getD "" == ""

/--
`NaturalLanguageSQL.process_query`. External parameters: `classify` is
`local_models.classify_query_intent` (intent and confidence), `aiGen` is
the schema-context fallback `hf_api.generate_sql_from_nl` (already
cleaned; may produce nothing), `parseOk` is `sqlparse`, and `execQ` is
`_execute_query` against the relational store (its exceptions appear as
`Except.error`).
-/
def process_query (classify : String → String × ℚ) (aiGen : String → Option String)
    (parseOk : List Char → Bool) (execQ : String → Except String (List Row))
    (q : String) (use_ai : Bool) : PQResult :=
  let ir := classify q
  let sm0 : Option String × String :=
    if 7/10 < ir.2 || !use_ai then (generate_sql_template q.data ir.1, "template")
    else (none, "attempted_template")
  let sm1 : Option String × String :=
    if optFalsy sm0.1 && use_ai then (aiGen q, "ai_generated") else sm0
  if optFalsy sm1.1 then
    { success := false, error := some "Could not generate SQL query",
      suggestion := some "Try rephrasing your question or be more specific",
      intent := ir.1, confidence := some ir.2 }
  else
    let sqlq := sm1.1.getD ""
    match validate_sql parseOk sqlq.data with
    | (false, verr) =>
      { success := false, error := some ("SQL validation failed: " ++ verr.getD ""),
        sql := some sqlq, intent := ir.1, method := some sm1.2 }
    | (true, _) =>
      match execQ sqlq with
      | .ok results =>
        { success := true, sql := some sqlq, results := some results,
          row_count := some results.length, intent := ir.1,
          confidence := some ir.2, method := some sm1.2 }
      | .error e =>
        { success := false, error := some e, sql := some sqlq,
          intent := ir.1, method := some sm1.2 }

/--
C9: every `QueryResult` returned by `process_query` reports a `row_count`
equal to the length of its `rows` — on the success path both are present
and consistent, on every failure path both are absent.
-/
theorem process_query_row_count :
    ∀ (classify : String → String × ℚ) (aiGen : String → Option String)
      (parseOk : List Char → Bool) (execQ : String → Except String (List Row))
      (q : String) (use_ai : Bool),
      (process_query classify aiGen parseOk execQ q use_ai).row_count
        = ((process_query classify aiGen parseOk execQ q use_ai).results).map List.length := by
  intro classify aiGen parseOk execQ q use_ai
  unfold process_query
  dsimp only
  repeat' split
  all_goals rfl
